import Mathlib

/-!
Simulador de inversiones (`src/main.js`)

A shallow embedding of the two functions of `src/main.js` that carry logic:

* `obtenerDatosDeInversion` (lines 14-52): four prompt/retry loops followed by a
  final `isNaN` check;
* `calcularProyeccion` (lines 60-81): the year-by-year projection loop.

For the projection and for the control flow of the input loops, JavaScript
numbers are modelled as exact rationals; the value `NaN` is modelled as `none`
of `Option ℚ`, and every comparison against `NaN` is false, as in JavaScript.
What the validator can store in the returned object depends on binary64
arithmetic (the infinities, and the rounded division of the rate by 100): the
namespace `Binary64` embeds `obtenerDatosDeInversion` over binary64 numbers for
that question.
The blocking `prompt` calls are modelled by explicit state passing over the
list of responses the user will give.
-/

namespace Simulador

/-! ## Constants (lines 5-6) -/

/-- Lower bound of the term in years, `const MIN_ANIOS = 1`. -/
def MIN_ANIOS : ℤ := 1

/-- Upper bound of the term in years, `const MAX_ANIOS = 50`. -/
def MAX_ANIOS : ℤ := 50

/-! ## Data model -/

/-- The object returned by `obtenerDatosDeInversion` (lines 46-51). -/
structure Datos where
  capital : ℚ
  aporte : ℚ
  plazo : ℤ
  tasa : ℚ
  deriving DecidableEq

/-- The object pushed for each year by `calcularProyeccion` (lines 73-78). -/
structure RegistroAnual where
  anio : ℤ
  aportes : ℚ
  rendimiento : ℚ
  balanceFinal : ℚ
  deriving DecidableEq

/-! ## `calcularProyeccion` (lines 60-81) -/

/-- The `for (let anio = 1; anio <= datos.plazo; anio++)` loop of lines 64-79.
The loop state is the counter `anio`, the running `balance` and the array
`proyeccionAnual` built so far. -/
def bucleAnios (datos : Datos) (anio : ℤ) (balance : ℚ)
    (proyeccionAnual : List RegistroAnual) : List RegistroAnual :=
  if anio ≤ datos.plazo then
    -- balance += datos.aporte * 12;
    let balance1 := balance + datos.aporte * 12
    -- const interesGanado = balance * datos.tasa;
    let interesGanado := balance1 * datos.tasa
    -- balance += interesGanado;
    let balance2 := balance1 + interesGanado
    bucleAnios datos (anio + 1) balance2
      (proyeccionAnual ++
        [{ anio := anio,
           aportes := datos.aporte * 12 * anio,
           rendimiento := balance2 - datos.capital - datos.aporte * 12 * anio,
           balanceFinal := balance2 }])
  else
    proyeccionAnual
termination_by (datos.plazo + 1 - anio).toNat
decreasing_by omega

/-- The function `calcularProyeccion(datos)`: `proyeccionAnual = []`,
`balance = datos.capital`, then the loop. -/
def calcularProyeccion (datos : Datos) : List RegistroAnual :=
  bucleAnios datos 1 datos.capital []

/-- A valid parameter set: what the validation loops of
`obtenerDatosDeInversion` let through. -/
def Valido (datos : Datos) : Prop :=
  0 ≤ datos.capital ∧ 0 ≤ datos.aporte ∧
    MIN_ANIOS ≤ datos.plazo ∧ datos.plazo ≤ MAX_ANIOS ∧ 0 < datos.tasa

instance (datos : Datos) : Decidable (Valido datos) := by
  unfold Valido; infer_instance

/-- One pass of the loop body on the balance (lines 66-70): the year's
contributions are added, then the interest on the new balance. -/
def pasoBalance (datos : Datos) (balance : ℚ) : ℚ :=
  (balance + datos.aporte * 12) + (balance + datos.aporte * 12) * datos.tasa

/-- The record pushed in the iteration with counter `anio` when the balance
after the iteration is `balance` (lines 73-78). -/
def registroDe (datos : Datos) (anio : ℤ) (balance : ℚ) : RegistroAnual :=
  { anio := anio,
    aportes := datos.aporte * 12 * anio,
    rendimiento := balance - datos.capital - datos.aporte * 12 * anio,
    balanceFinal := balance }

/-! ## Reference recurrence of the specification -/

/-- The reference balance of the specification: `B_0 = capital` and
`B_n = (B_{n-1} + aporte*12) * (1 + tasa)`. -/
def balanceRef (capital aporte tasa : ℚ) : ℕ → ℚ
  | 0 => capital
  | n + 1 => (balanceRef capital aporte tasa n + aporte * 12) * (1 + tasa)

/-! ## `obtenerDatosDeInversion` (lines 14-52) -/

/-- What the user does at one `prompt`: either the dialog is cancelled
(`prompt` returns `null`), or a text is typed. A typed text is represented by
what the two host functions make of it: `comoFloat` is `parseFloat` of the
text and `comoInt` is `parseInt` of the text, `none` standing for `NaN`. -/
inductive Respuesta where
  | cancelar
  | texto (comoFloat : Option ℚ) (comoInt : Option ℤ)
  deriving DecidableEq

/-- The host function `parseFloat` applied to the result of `prompt`;
`parseFloat(null)` is `NaN`. -/
def parseFloat : Respuesta → Option ℚ
  | .cancelar => none
  | .texto f _ => f

/-- The host function `parseInt` applied to the result of `prompt`;
`parseInt(null)` is `NaN`. -/
def parseInt : Respuesta → Option ℤ
  | .cancelar => none
  | .texto _ i => i

/-- The host function `isNaN`. -/
def isNaN {α : Type} (x : Option α) : Bool := x.isNone

/-- The comparison `x < y` of JavaScript: false when `x` is `NaN`. -/
def menorQue {α : Type} [LT α] [DecidableRel (fun (a b : α) => a < b)]
    (x : Option α) (y : α) : Bool :=
  match x with
  | none => false
  | some v => decide (v < y)

/-- The comparison `x <= y` of JavaScript: false when `x` is `NaN`. -/
def menorIgual {α : Type} [LE α] [DecidableRel (fun (a b : α) => a ≤ b)]
    (x : Option α) (y : α) : Bool :=
  match x with
  | none => false
  | some v => decide (v ≤ y)

/-- The comparison `x > y` of JavaScript: false when `x` is `NaN`. -/
def mayorQue {α : Type} [LT α] [DecidableRel (fun (a b : α) => a < b)]
    (x : Option α) (y : α) : Bool :=
  match x with
  | none => false
  | some v => decide (y < v)

/-- Loop condition of line 16: `isNaN(capitalInicial) || capitalInicial < 0`. -/
def condCapital (capitalInicial : Option ℚ) : Bool :=
  isNaN capitalInicial || menorQue capitalInicial 0

/-- Loop condition of line 22: `isNaN(aporteMensual) || aporteMensual < 0`. -/
def condAporte (aporteMensual : Option ℚ) : Bool :=
  isNaN aporteMensual || menorQue aporteMensual 0

/-- Loop condition of line 28:
`isNaN(plazoAnios) || plazoAnios < MIN_ANIOS || plazoAnios > MAX_ANIOS`. -/
def condPlazo (plazoAnios : Option ℤ) : Bool :=
  isNaN plazoAnios || menorQue plazoAnios MIN_ANIOS || mayorQue plazoAnios MAX_ANIOS

/-- Loop condition of line 34: `isNaN(tasaAnual) || tasaAnual <= 0`. -/
def condTasa (tasaAnual : Option ℚ) : Bool :=
  isNaN tasaAnual || menorIgual tasaAnual 0

/-- One call of `prompt`: it takes the next response of the user. With no
response left the call blocks for ever, which is the result `none`. -/
def prompt : List Respuesta → Option (Respuesta × List Respuesta)
  | [] => none
  | r :: resto => some (r, resto)

/-- The retry loop shared by the four fields (lines 16-19, 22-25, 28-31 and
34-37): `while (cond(v)) { alert(...); v = leer(prompt(...)); }`. The result
is the value of the variable at loop exit with the responses still unread, or
`none` when the loop is left blocked at a `prompt`. -/
def mientras {α : Type} (cond : Option α → Bool) (leer : Respuesta → Option α) :
    Option α → List Respuesta → Option (Option α × List Respuesta)
  | v, [] => if cond v then none else some (v, [])
  | v, r :: resto =>
    if cond v then mientras cond leer (leer r) resto else some (v, r :: resto)

/-- The function `obtenerDatosDeInversion()`, reading the responses of the
user from `entradas`. The result is `none` when the function is still blocked
at a `prompt` after the last response; otherwise it is the returned value
(`none` for `null`) with the responses left unread. -/
def obtenerDatosDeInversion (entradas : List Respuesta) :
    Option (Option Datos × List Respuesta) := do
  let (r, entradas) ← prompt entradas
  let (capitalInicial, entradas) ← mientras condCapital parseFloat (parseFloat r) entradas
  let (r, entradas) ← prompt entradas
  let (aporteMensual, entradas) ← mientras condAporte parseFloat (parseFloat r) entradas
  let (r, entradas) ← prompt entradas
  let (plazoAnios, entradas) ← mientras condPlazo parseInt (parseInt r) entradas
  let (r, entradas) ← prompt entradas
  let (tasaAnual, entradas) ← mientras condTasa parseFloat (parseFloat r) entradas
  if isNaN capitalInicial || isNaN aporteMensual || isNaN plazoAnios || isNaN tasaAnual then
    pure (none, entradas)
  else
    match capitalInicial, aporteMensual, plazoAnios, tasaAnual with
    | some capital, some aporte, some plazo, some tasa =>
      pure (some { capital := capital, aporte := aporte, plazo := plazo, tasa := tasa / 100 },
        entradas)
    | _, _, _, _ => pure (none, entradas)

/-- The branch of `iniciarSimulador` taken after `obtenerDatosDeInversion`
returned `datosInversion` (lines 128-136): the projection is computed for an
object, and the simulation is reported as cancelled for `null`. -/
inductive Rama where
  | proyeccion (p : List RegistroAnual)
  | cancelada
  deriving DecidableEq

/-- The `if (datosInversion) ... else ...` of `iniciarSimulador`. -/
def ramaSimulador (datosInversion : Option Datos) : Rama :=
  match datosInversion with
  | some datos => .proyeccion (calcularProyeccion datos)
  | none => .cancelada

/-! ## Vocabulary of the statements -/

/-- A response that the capital loop lets through: it parses to a number
`>= 0`. -/
def CapitalValido (r : Respuesta) : Prop := ∃ x, parseFloat r = some x ∧ 0 ≤ x

/-- A response that the contribution loop lets through: it parses to a number
`>= 0`. -/
def AporteValido (r : Respuesta) : Prop := ∃ x, parseFloat r = some x ∧ 0 ≤ x

/-- A response that the term loop lets through: it parses to an integer in
`[1, 50]`. -/
def PlazoValido (r : Respuesta) : Prop := ∃ n, parseInt r = some n ∧ 1 ≤ n ∧ n ≤ 50

/-- A response that the rate loop lets through: it parses to a number `> 0`. -/
def TasaValida (r : Respuesta) : Prop := ∃ x, parseFloat r = some x ∧ 0 < x

/-! ## Auxiliary definitions for the proofs -/

/-- One field of `obtenerDatosDeInversion`: the first `prompt` of the field
followed by its retry loop. -/
def pedir {α : Type} (cond : Option α → Bool) (leer : Respuesta → Option α)
    (entradas : List Respuesta) : Option (Option α × List Respuesta) := do
  let (r, entradas) ← prompt entradas
  mientras cond leer (leer r) entradas

/-- The end of `obtenerDatosDeInversion` (lines 42-51) as a function of the
four variables: the final `isNaN` check and the returned object. -/
def porDevolver (capitalInicial aporteMensual : Option ℚ) (plazoAnios : Option ℤ)
    (tasaAnual : Option ℚ) : Option Datos :=
  if isNaN capitalInicial || isNaN aporteMensual || isNaN plazoAnios || isNaN tasaAnual then
    none
  else
    match capitalInicial, aporteMensual, plazoAnios, tasaAnual with
    | some capital, some aporte, some plazo, some tasa =>
      some { capital := capital, aporte := aporte, plazo := plazo, tasa := tasa / 100 }
    | _, _, _, _ => none

/-- Text typed by the user that both host parsers read as the integer `n`. -/
def entero (n : ℤ) : Respuesta := .texto (some (n : ℚ)) (some n)

/-- Text typed by the user that neither host parser can read (`NaN`). -/
def ilegible : Respuesta := .texto none none

/-! ## `obtenerDatosDeInversion` over binary64 numbers

The embedding above takes numbers as exact rationals. Line 50 of the source,
`tasa: tasaAnual / 100`, is a division of binary64 numbers, whose result is
rounded, and `parseFloat` and `parseInt` may return an infinity. The embedding
of this section keeps both: a number is `NaN`, an infinity or a finite value,
and the division by 100 rounds to the nearest binary64 number, ties to even.
The two zeros of binary64 are one value here: no operation of the function
tells them apart. -/

namespace Binary64

/-- A JavaScript number: `NaN`, `Infinity` or `-Infinity`, or a finite value. -/
inductive Numero (α : Type) where
  | nan
  | infinito (negativo : Bool)
  | finito (valor : α)
  deriving DecidableEq

/-- What the user does at one `prompt`: the dialog is cancelled, or a text is
typed, represented by the numbers `parseFloat` and `parseInt` make of it
(`parseInt` gives an integer, an infinity for a run of digits beyond the
binary64 range, or `NaN`). -/
inductive Respuesta where
  | cancelar
  | texto (comoFloat : Numero ℚ) (comoInt : Numero ℤ)
  deriving DecidableEq

/-- The host function `parseFloat` applied to the result of `prompt`;
`parseFloat(null)` is `NaN`. -/
def parseFloat : Respuesta → Numero ℚ
  | .cancelar => .nan
  | .texto f _ => f

/-- The host function `parseInt` applied to the result of `prompt`;
`parseInt(null)` is `NaN`. -/
def parseInt : Respuesta → Numero ℤ
  | .cancelar => .nan
  | .texto _ i => i

/-- The host function `isNaN`. -/
def isNaN {α : Type} : Numero α → Bool
  | .nan => true
  | _ => false

/-- The comparison `x < y` against a finite `y`: false for `NaN`, true for
`-Infinity`, false for `Infinity`. -/
def menorQue {α : Type} [LT α] [DecidableRel (fun (a b : α) => a < b)]
    (x : Numero α) (y : α) : Bool :=
  match x with
  | .nan => false
  | .infinito negativo => negativo
  | .finito v => decide (v < y)

/-- The comparison `x <= y` against a finite `y`. -/
def menorIgual {α : Type} [LE α] [DecidableRel (fun (a b : α) => a ≤ b)]
    (x : Numero α) (y : α) : Bool :=
  match x with
  | .nan => false
  | .infinito negativo => negativo
  | .finito v => decide (v ≤ y)

/-- The comparison `x > y` against a finite `y`: false for `NaN`, false for
`-Infinity`, true for `Infinity`. -/
def mayorQue {α : Type} [LT α] [DecidableRel (fun (a b : α) => a < b)]
    (x : Numero α) (y : α) : Bool :=
  match x with
  | .nan => false
  | .infinito negativo => !negativo
  | .finito v => decide (y < v)

/-- Loop condition of line 16: `isNaN(capitalInicial) || capitalInicial < 0`. -/
def condCapital (capitalInicial : Numero ℚ) : Bool :=
  isNaN capitalInicial || menorQue capitalInicial 0

/-- Loop condition of line 22: `isNaN(aporteMensual) || aporteMensual < 0`. -/
def condAporte (aporteMensual : Numero ℚ) : Bool :=
  isNaN aporteMensual || menorQue aporteMensual 0

/-- Loop condition of line 28:
`isNaN(plazoAnios) || plazoAnios < MIN_ANIOS || plazoAnios > MAX_ANIOS`. -/
def condPlazo (plazoAnios : Numero ℤ) : Bool :=
  isNaN plazoAnios || menorQue plazoAnios MIN_ANIOS || mayorQue plazoAnios MAX_ANIOS

/-- Loop condition of line 34: `isNaN(tasaAnual) || tasaAnual <= 0`. -/
def condTasa (tasaAnual : Numero ℚ) : Bool :=
  isNaN tasaAnual || menorIgual tasaAnual 0

/-- Rounding of a rational to the nearest integer, ties to the even one. -/
def redondeoPar (x : ℚ) : ℤ :=
  if x - ⌊x⌋ < 1 / 2 then ⌊x⌋
  else if 1 / 2 < x - ⌊x⌋ then ⌊x⌋ + 1
  else if ⌊x⌋ % 2 = 0 then ⌊x⌋
  else ⌊x⌋ + 1

/-- The binary exponent that fixes the spacing of the binary64 numbers around
`a >= 0`: `floor (log2 a)`, and `-1022` throughout the subnormal range. -/
def exponente (a : ℚ) : ℤ :=
  if a < 2 ^ (-1022 : ℤ) then -1022 else Int.log 2 a

/-- Rounding of `a >= 0` to binary64: the nearest multiple of the spacing
`2 ^ (exponente a - 52)`, ties to even, and `Infinity` from `2 ^ 1024` on. -/
def redondearMagnitud (a : ℚ) : Numero ℚ :=
  let ulp : ℚ := 2 ^ (exponente a - 52)
  let r : ℚ := redondeoPar (a / ulp) * ulp
  if 2 ^ (1024 : ℤ) ≤ r then .infinito false else .finito r

/-- Sign change of a number. -/
def negar : Numero ℚ → Numero ℚ
  | .nan => .nan
  | .infinito negativo => .infinito (!negativo)
  | .finito v => .finito (-v)

/-- Rounding of an exact result to binary64, round to nearest, ties to even. -/
def redondear (q : ℚ) : Numero ℚ :=
  if q < 0 then negar (redondearMagnitud (-q)) else redondearMagnitud q

/-- The expression `tasaAnual / 100` of line 50: `NaN` and the infinities are
kept, and a finite quotient is rounded to binary64. -/
def entre100 : Numero ℚ → Numero ℚ
  | .nan => .nan
  | .infinito negativo => .infinito negativo
  | .finito v => redondear (v / 100)

/-- The object returned by `obtenerDatosDeInversion` (lines 46-51); every
field is a JavaScript number. -/
structure Datos where
  capital : Numero ℚ
  aporte : Numero ℚ
  plazo : Numero ℤ
  tasa : Numero ℚ
  deriving DecidableEq

/-- One call of `prompt`: it takes the next response of the user. With no
response left the call blocks for ever, which is the result `none`. -/
def prompt : List Respuesta → Option (Respuesta × List Respuesta)
  | [] => none
  | r :: resto => some (r, resto)

/-- The retry loop shared by the four fields (lines 16-19, 22-25, 28-31 and
34-37): `while (cond(v)) { alert(...); v = leer(prompt(...)); }`. -/
def mientras {α : Type} (cond : Numero α → Bool) (leer : Respuesta → Numero α) :
    Numero α → List Respuesta → Option (Numero α × List Respuesta)
  | v, [] => if cond v then none else some (v, [])
  | v, r :: resto =>
    if cond v then mientras cond leer (leer r) resto else some (v, r :: resto)

/-- The function `obtenerDatosDeInversion()`, reading the responses of the
user from `entradas`. The result is `none` when the function is still blocked
at a `prompt` after the last response; otherwise it is the returned value
(`none` for `null`) with the responses left unread. -/
def obtenerDatosDeInversion (entradas : List Respuesta) :
    Option (Option Datos × List Respuesta) := do
  let (r, entradas) ← prompt entradas
  let (capitalInicial, entradas) ← mientras condCapital parseFloat (parseFloat r) entradas
  let (r, entradas) ← prompt entradas
  let (aporteMensual, entradas) ← mientras condAporte parseFloat (parseFloat r) entradas
  let (r, entradas) ← prompt entradas
  let (plazoAnios, entradas) ← mientras condPlazo parseInt (parseInt r) entradas
  let (r, entradas) ← prompt entradas
  let (tasaAnual, entradas) ← mientras condTasa parseFloat (parseFloat r) entradas
  if isNaN capitalInicial || isNaN aporteMensual || isNaN plazoAnios || isNaN tasaAnual then
    pure (none, entradas)
  else
    pure (some { capital := capitalInicial, aporte := aporteMensual, plazo := plazoAnios,
                 tasa := entre100 tasaAnual }, entradas)

/-- The test `x >= 0` of JavaScript on a number: `x` is `Infinity` or a finite
value that is not negative. It fails for `NaN`. -/
def NoNegativo (x : Numero ℚ) : Prop :=
  x = .infinito false ∨ ∃ v, x = .finito v ∧ 0 ≤ v

/-- The test `x > 0` of JavaScript on a number: `x` is `Infinity` or a finite
value above zero. It fails for `NaN`. -/
def Positivo (x : Numero ℚ) : Prop :=
  x = .infinito false ∨ ∃ v, x = .finito v ∧ 0 < v

/-- The test `1 <= x && x <= 50` of JavaScript on the term. -/
def PlazoEnRango (x : Numero ℤ) : Prop :=
  ∃ n, x = .finito n ∧ 1 ≤ n ∧ n ≤ 50

/-- One field of `obtenerDatosDeInversion`: the first `prompt` of the field
followed by its retry loop. -/
def pedir {α : Type} (cond : Numero α → Bool) (leer : Respuesta → Numero α)
    (entradas : List Respuesta) : Option (Numero α × List Respuesta) := do
  let (r, entradas) ← prompt entradas
  mientras cond leer (leer r) entradas

/-- Text typed by the user that both host parsers read as the integer `n`. -/
def entero (n : ℤ) : Respuesta := .texto (.finito (n : ℚ)) (.finito n)

/-- The text `1e-323`: `parseFloat` reads the binary64 number `2 ^ (-1073)`,
the nearest to `10 ^ (-323)`, and `parseInt` reads the leading digit `1`. -/
def textoTasaMinima : Respuesta := .texto (.finito (2 ^ (-1073 : ℤ))) (.finito 1)

end Binary64

/-! ## Characterisation of the loop -/

theorem bucleAnios_eq (datos : Datos) (k : ℕ) :
    ∀ (anio : ℤ) (balance : ℚ) (acc : List RegistroAnual),
      anio + k = datos.plazo + 1 →
      bucleAnios datos anio balance acc =
        acc ++ (List.range k).map
          (fun (j : ℕ) => registroDe datos (anio + (j : ℤ)) ((pasoBalance datos)^[j + 1] balance)) := by
  induction k with
  | zero =>
    intro anio balance acc h
    rw [bucleAnios]
    have : ¬ anio ≤ datos.plazo := by
      have h0 : anio = datos.plazo + 1 := by simpa using h
      omega
    simp [this]
  | succ k ih =>
    intro anio balance acc h
    rw [bucleAnios]
    have hle : anio ≤ datos.plazo := by
      push_cast at h
      omega
    simp only [hle, if_true]
    rw [ih (anio + 1) _ _ (by push_cast at h ⊢; omega)]
    rw [List.range_succ_eq_map, List.map_cons, List.map_map]
    simp only [List.append_assoc, List.singleton_append]
    congr 1
    congr 1
    · simp [registroDe, pasoBalance]
    · apply List.map_congr_left
      intro j _
      simp only [Function.comp, Function.iterate_succ, Nat.cast_succ]
      congr 1
      ring


/-- The whole result of `calcularProyeccion`: one record per year `1..plazo`,
the record of year `j + 1` holding the balance after `j + 1` passes of the
loop body. -/
theorem calcularProyeccion_eq (datos : Datos) :
    calcularProyeccion datos =
      (List.range datos.plazo.toNat).map
        (fun (j : ℕ) =>
          registroDe datos (1 + (j : ℤ)) ((pasoBalance datos)^[j + 1] datos.capital)) := by
  unfold calcularProyeccion
  by_cases h : 0 ≤ datos.plazo
  · rw [bucleAnios_eq datos datos.plazo.toNat 1 datos.capital [] (by omega)]
    simp
  · have h0 : datos.plazo.toNat = 0 := by omega
    rw [bucleAnios, h0]
    have : ¬ (1 : ℤ) ≤ datos.plazo := by omega
    simp [this]

theorem calcularProyeccion_length (datos : Datos) :
    (calcularProyeccion datos).length = datos.plazo.toNat := by
  simp [calcularProyeccion_eq]

theorem calcularProyeccion_getElem? (datos : Datos) (j : ℕ) (hj : j < datos.plazo.toNat) :
    (calcularProyeccion datos)[j]? =
      some (registroDe datos (1 + (j : ℤ)) ((pasoBalance datos)^[j + 1] datos.capital)) := by
  rw [calcularProyeccion_eq, List.getElem?_map, List.getElem?_range hj]
  rfl

/-- The loop body is the step of the reference recurrence. -/
theorem pasoBalance_iterate (datos : Datos) (n : ℕ) :
    (pasoBalance datos)^[n] datos.capital =
      balanceRef datos.capital datos.aporte datos.tasa n := by
  induction n with
  | zero => rfl
  | succ n ih =>
    rw [Function.iterate_succ_apply', ih]
    simp only [pasoBalance, balanceRef]
    ring

/-- The record of year `n`, for `1 ≤ n ≤ plazo`, in terms of the reference
recurrence. -/
theorem calcularProyeccion_anio (datos : Datos) (n : ℕ) (h1 : 1 ≤ n)
    (hn : (n : ℤ) ≤ datos.plazo) :
    (calcularProyeccion datos)[n - 1]? =
      some (registroDe datos n (balanceRef datos.capital datos.aporte datos.tasa n)) := by
  obtain ⟨j, rfl⟩ : ∃ j, n = j + 1 := ⟨n - 1, by omega⟩
  rw [Nat.add_sub_cancel, calcularProyeccion_getElem? datos j (by omega), pasoBalance_iterate]
  congr 2
  push_cast
  ring

theorem balanceRef_nonneg (capital aporte tasa : ℚ) (hc : 0 ≤ capital) (ha : 0 ≤ aporte)
    (ht : 0 < tasa) (n : ℕ) : 0 ≤ balanceRef capital aporte tasa n := by
  induction n with
  | zero => simpa [balanceRef] using hc
  | succ n ih =>
    simp only [balanceRef]
    positivity

theorem balanceRef_mono (capital aporte tasa : ℚ) (hc : 0 ≤ capital) (ha : 0 ≤ aporte)
    (ht : 0 < tasa) (n : ℕ) :
    balanceRef capital aporte tasa n ≤ balanceRef capital aporte tasa (n + 1) := by
  have hb := balanceRef_nonneg capital aporte tasa hc ha ht n
  simp only [balanceRef]
  nlinarith [mul_nonneg hb ht.le, mul_nonneg ha ht.le]

theorem balanceRef_ge_depositado (capital aporte tasa : ℚ) (hc : 0 ≤ capital) (ha : 0 ≤ aporte)
    (ht : 0 < tasa) (n : ℕ) :
    capital + aporte * 12 * n ≤ balanceRef capital aporte tasa n := by
  induction n with
  | zero => simp [balanceRef]
  | succ n ih =>
    have hb := balanceRef_nonneg capital aporte tasa hc ha ht n
    simp only [balanceRef]
    push_cast
    nlinarith [mul_nonneg hb ht.le, mul_nonneg ha ht.le]

theorem balanceRef_cerrada (capital aporte tasa : ℚ) (ht : 0 < tasa) (n : ℕ) :
    balanceRef capital aporte tasa n =
      capital * (1 + tasa) ^ n + aporte * 12 * (1 + tasa) * ((1 + tasa) ^ n - 1) / tasa := by
  have ht0 : tasa ≠ 0 := ht.ne.symm
  induction n with
  | zero => simp [balanceRef]
  | succ n ih =>
    simp only [balanceRef]
    rw [ih]
    field_simp
    ring

theorem balanceRef_sin_aporte (capital tasa : ℚ) (n : ℕ) :
    balanceRef capital 0 tasa n = capital * (1 + tasa) ^ n := by
  induction n with
  | zero => simp [balanceRef]
  | succ n ih =>
    simp only [balanceRef]
    rw [ih]
    ring

theorem valido_escenario_concreto : Valido ⟨1000, 100, 1, 12 / 100⟩ := by
  unfold Valido MIN_ANIOS MAX_ANIOS
  norm_num

theorem valido_escenario_sin_aporte : Valido ⟨1000, 0, 2, 1 / 10⟩ := by
  unfold Valido MIN_ANIOS MAX_ANIOS
  norm_num

theorem valido_escenario_tres_anios : Valido ⟨1000, 100, 3, 1 / 10⟩ := by
  unfold Valido MIN_ANIOS MAX_ANIOS
  norm_num

/-! ## Claims on `calcularProyeccion` -/

/-- C1: for every valid parameter set and every year `n` in `1..plazo`, the
`n`-th record returned by `calcularProyeccion` is the record of the reference
algorithm: `anio = n`, `aportes = aporte*12*n`, `balanceFinal = B_n` and
`rendimiento = B_n - capital - aporte*12*n`, where `B_0 = capital` and
`B_n = (B_{n-1} + aporte*12) * (1 + tasa)`. -/
theorem calcularProyeccion_refina_referencia (datos : Datos) (n : ℕ)
    (hv : Valido datos) (h1 : 1 ≤ n) (hn : (n : ℤ) ≤ datos.plazo) :
    (calcularProyeccion datos)[n - 1]? =
      some { anio := n,
             aportes := datos.aporte * 12 * n,
             rendimiento :=
               balanceRef datos.capital datos.aporte datos.tasa n
                 - datos.capital - datos.aporte * 12 * n,
             balanceFinal := balanceRef datos.capital datos.aporte datos.tasa n } := by
  have _ := hv
  rw [calcularProyeccion_anio datos n h1 hn]
  simp [registroDe]

/-- Witness of C1, the concrete scenario of the specification: capital 1000,
aporte 100, plazo 1, tasa 0.12 gives aportes 1200, rendimiento 264 and
balanceFinal 2464 in year 1. -/
theorem calcularProyeccion_refina_referencia_witness :
    Valido ⟨1000, 100, 1, 12 / 100⟩ ∧
      (calcularProyeccion ⟨1000, 100, 1, 12 / 100⟩)[0]? =
        some { anio := 1, aportes := 1200, rendimiento := 264, balanceFinal := 2464 } := by
  refine ⟨valido_escenario_concreto, ?_⟩
  have h := calcularProyeccion_refina_referencia ⟨1000, 100, 1, 12 / 100⟩ 1
    valido_escenario_concreto (le_refl 1) (by norm_num)
  rw [show (1 - 1 : ℕ) = 0 from rfl] at h
  rw [h]
  simp only [balanceRef]
  norm_num

/-- C4: for every valid parameter set, `balanceFinal` is non-decreasing year
over year: for `1 ≤ i < plazo` the records of years `i` and `i + 1` both
exist and the second has a `balanceFinal` at least that of the first. -/
theorem calcularProyeccion_balance_no_decrece (datos : Datos) (i : ℕ)
    (hv : Valido datos) (h1 : 1 ≤ i) (hi : (i : ℤ) < datos.plazo) :
    ∃ r s, (calcularProyeccion datos)[i - 1]? = some r ∧
      (calcularProyeccion datos)[i]? = some s ∧ r.balanceFinal ≤ s.balanceFinal := by
  obtain ⟨hc, ha, _, _, ht⟩ := hv
  have hs := calcularProyeccion_anio datos (i + 1) (by omega) (by push_cast; omega)
  rw [Nat.add_sub_cancel] at hs
  exact ⟨_, _, calcularProyeccion_anio datos i h1 (by omega), hs,
    balanceRef_mono datos.capital datos.aporte datos.tasa hc ha ht i⟩

/-- Witness of C4 at capital 1000, aporte 100, plazo 3, tasa 0.10 between
years 1 and 2. -/
theorem calcularProyeccion_balance_no_decrece_witness :
    ∃ r s, (calcularProyeccion ⟨1000, 100, 3, 1 / 10⟩)[1 - 1]? = some r ∧
      (calcularProyeccion ⟨1000, 100, 3, 1 / 10⟩)[1]? = some s ∧
      r.balanceFinal ≤ s.balanceFinal :=
  calcularProyeccion_balance_no_decrece ⟨1000, 100, 3, 1 / 10⟩ 1
    valido_escenario_tres_anios (le_refl 1) (by norm_num)

/-- C5: for every valid parameter set the array returned by
`calcularProyeccion` has exactly `plazo` elements, is not empty, and its
element at index `length - 1`, read by `mostrarResultados`, is defined. -/
theorem calcularProyeccion_longitud (datos : Datos) (hv : Valido datos) :
    ((calcularProyeccion datos).length : ℤ) = datos.plazo ∧
      calcularProyeccion datos ≠ [] ∧
      ∃ resultadoFinal,
        (calcularProyeccion datos)[(calcularProyeccion datos).length - 1]? =
          some resultadoFinal := by
  obtain ⟨_, _, hmin, _, _⟩ := hv
  unfold MIN_ANIOS at hmin
  have hlen := calcularProyeccion_length datos
  have hpos : 0 < (calcularProyeccion datos).length := by omega
  refine ⟨by omega, List.ne_nil_of_length_pos hpos, ?_⟩
  exact ⟨_, List.getElem?_eq_getElem (by omega)⟩

/-- Witness of C5 at capital 1000, aporte 100, plazo 3, tasa 0.10. -/
theorem calcularProyeccion_longitud_witness :
    ((calcularProyeccion ⟨1000, 100, 3, 1 / 10⟩).length : ℤ) = 3 ∧
      calcularProyeccion ⟨1000, 100, 3, 1 / 10⟩ ≠ [] ∧
      ∃ resultadoFinal,
        (calcularProyeccion ⟨1000, 100, 3, 1 / 10⟩)[
            (calcularProyeccion ⟨1000, 100, 3, 1 / 10⟩).length - 1]? =
          some resultadoFinal :=
  calcularProyeccion_longitud ⟨1000, 100, 3, 1 / 10⟩ valido_escenario_tres_anios

/-- C6: for every valid parameter set and every 0-based index `i` into the
result of `calcularProyeccion`, the record at `i` has `anio = i + 1`. -/
theorem calcularProyeccion_anios_consecutivos (datos : Datos) (i : ℕ)
    (hv : Valido datos) (hi : i < (calcularProyeccion datos).length) :
    ((calcularProyeccion datos)[i]).anio = (i : ℤ) + 1 := by
  have _ := hv
  have hj : i < datos.plazo.toNat := by
    rwa [calcularProyeccion_length] at hi
  have h := calcularProyeccion_getElem? datos i hj
  rw [List.getElem?_eq_getElem hi, Option.some.injEq] at h
  rw [h]
  simp [registroDe, add_comm]

/-- Witness of C6 at capital 1000, aporte 100, plazo 3, tasa 0.10, index 2. -/
theorem calcularProyeccion_anios_consecutivos_witness :
    ∃ h : 2 < (calcularProyeccion ⟨1000, 100, 3, 1 / 10⟩).length,
      ((calcularProyeccion ⟨1000, 100, 3, 1 / 10⟩).get ⟨2, h⟩).anio = 3 := by
  have hlen : 2 < (calcularProyeccion ⟨1000, 100, 3, 1 / 10⟩).length := by
    rw [calcularProyeccion_length]
    decide
  refine ⟨hlen, ?_⟩
  have h := calcularProyeccion_anios_consecutivos ⟨1000, 100, 3, 1 / 10⟩ 2
    valido_escenario_tres_anios hlen
  simpa using h

/-- C7: for every valid parameter set and every record returned by
`calcularProyeccion`, `balanceFinal = capital + aportes + rendimiento` over
exact rational arithmetic. -/
theorem calcularProyeccion_reconciliacion (datos : Datos) (r : RegistroAnual)
    (hv : Valido datos) (hr : r ∈ calcularProyeccion datos) :
    r.balanceFinal = datos.capital + r.aportes + r.rendimiento := by
  have _ := hv
  rw [calcularProyeccion_eq, List.mem_map] at hr
  obtain ⟨j, _, rfl⟩ := hr
  simp only [registroDe]
  ring

/-- Witness of C7 at the concrete scenario of the specification. -/
theorem calcularProyeccion_reconciliacion_witness :
    (⟨1, 1200, 264, 2464⟩ : RegistroAnual) ∈ calcularProyeccion ⟨1000, 100, 1, 12 / 100⟩ ∧
      (2464 : ℚ) = 1000 + 1200 + 264 := by
  have hr : (⟨1, 1200, 264, 2464⟩ : RegistroAnual) ∈
      calcularProyeccion ⟨1000, 100, 1, 12 / 100⟩ := by
    rw [calcularProyeccion_eq]
    simp [registroDe, pasoBalance]
    norm_num
  exact ⟨hr, calcularProyeccion_reconciliacion ⟨1000, 100, 1, 12 / 100⟩ _
    valido_escenario_concreto hr⟩

/-- C8: with `aporte = 0` the projection is pure compounding: for every valid
parameter set with zero contribution and every year `n` in `1..plazo`, the
record of year `n` exists and its `balanceFinal` is `capital * (1 + tasa)^n`. -/
theorem calcularProyeccion_sin_aporte (datos : Datos) (n : ℕ)
    (hv : Valido datos) (h0 : datos.aporte = 0) (h1 : 1 ≤ n) (hn : (n : ℤ) ≤ datos.plazo) :
    ∃ r, (calcularProyeccion datos)[n - 1]? = some r ∧
      r.balanceFinal = datos.capital * (1 + datos.tasa) ^ n := by
  have _ := hv
  refine ⟨_, calcularProyeccion_anio datos n h1 hn, ?_⟩
  simp only [registroDe]
  rw [h0, balanceRef_sin_aporte]

/-- Witness of C8, the zero-contribution scenario of the specification:
capital 1000, aporte 0, plazo 2, tasa 0.10 gives 1100 in year 1 and 1210 in
year 2. -/
theorem calcularProyeccion_sin_aporte_witness :
    (∃ r, (calcularProyeccion ⟨1000, 0, 2, 1 / 10⟩)[0]? = some r ∧ r.balanceFinal = 1100) ∧
      (∃ r, (calcularProyeccion ⟨1000, 0, 2, 1 / 10⟩)[1]? = some r ∧ r.balanceFinal = 1210) := by
  obtain ⟨r, hr, hb⟩ := calcularProyeccion_sin_aporte ⟨1000, 0, 2, 1 / 10⟩ 1
    valido_escenario_sin_aporte rfl (le_refl 1) (by norm_num)
  obtain ⟨s, hs, hc⟩ := calcularProyeccion_sin_aporte ⟨1000, 0, 2, 1 / 10⟩ 2
    valido_escenario_sin_aporte rfl (by norm_num) (by norm_num)
  refine ⟨⟨r, hr, ?_⟩, ⟨s, hs, ?_⟩⟩
  · rw [hb]; norm_num
  · rw [hc]; norm_num

/-- C10: for every valid parameter set and every year `n` in `1..plazo`, the
record of year `n` exists, its `balanceFinal` is
`capital*(1+tasa)^n + aporte*12*(1+tasa)*((1+tasa)^n - 1)/tasa`, and its
`rendimiento` is not negative. -/
theorem calcularProyeccion_forma_cerrada (datos : Datos) (n : ℕ)
    (hv : Valido datos) (h1 : 1 ≤ n) (hn : (n : ℤ) ≤ datos.plazo) :
    ∃ r, (calcularProyeccion datos)[n - 1]? = some r ∧
      r.balanceFinal =
        datos.capital * (1 + datos.tasa) ^ n
          + datos.aporte * 12 * (1 + datos.tasa) * ((1 + datos.tasa) ^ n - 1) / datos.tasa ∧
      0 ≤ r.rendimiento := by
  obtain ⟨hc, ha, _, _, ht⟩ := hv
  refine ⟨_, calcularProyeccion_anio datos n h1 hn, ?_, ?_⟩
  · simp only [registroDe]
    exact balanceRef_cerrada datos.capital datos.aporte datos.tasa ht n
  · simp only [registroDe]
    have := balanceRef_ge_depositado datos.capital datos.aporte datos.tasa hc ha ht n
    push_cast
    linarith

/-- Witness of C10 at capital 1000, aporte 100, plazo 3, tasa 0.10, year 2. -/
theorem calcularProyeccion_forma_cerrada_witness :
    ∃ r, (calcularProyeccion ⟨1000, 100, 3, 1 / 10⟩)[2 - 1]? = some r ∧
      r.balanceFinal =
        (1000 : ℚ) * (1 + 1 / 10) ^ 2
          + 100 * 12 * (1 + 1 / 10) * ((1 + 1 / 10) ^ 2 - 1) / (1 / 10) ∧
      0 ≤ r.rendimiento :=
  calcularProyeccion_forma_cerrada ⟨1000, 100, 3, 1 / 10⟩ 2
    valido_escenario_tres_anios (by norm_num) (by norm_num)

/-! ## The retry loops -/

theorem obtenerDatosDeInversion_eq (entradas : List Respuesta) :
    obtenerDatosDeInversion entradas =
      (pedir condCapital parseFloat entradas).bind fun p1 =>
      (pedir condAporte parseFloat p1.2).bind fun p2 =>
      (pedir condPlazo parseInt p2.2).bind fun p3 =>
      (pedir condTasa parseFloat p3.2).bind fun p4 =>
      some (porDevolver p1.1 p2.1 p3.1 p4.1, p4.2) := by
  unfold obtenerDatosDeInversion pedir porDevolver
  simp only [Option.bind_eq_bind, Option.bind_assoc, Option.pure_def]
  congr 1; funext ⟨r, e⟩; dsimp only
  congr 1; funext ⟨c, e⟩; dsimp only
  congr 1; funext ⟨r, e⟩; dsimp only
  congr 1; funext ⟨a, e⟩; dsimp only
  congr 1; funext ⟨r, e⟩; dsimp only
  congr 1; funext ⟨p, e⟩; dsimp only
  congr 1; funext ⟨r, e⟩; dsimp only
  congr 1; funext ⟨t, e⟩; dsimp only
  split
  · rfl
  · split <;> rfl

section Bucle

variable {α : Type} (cond : Option α → Bool) (leer : Respuesta → Option α)

theorem mientras_invalido (v : Option α) (entradas : List Respuesta) (h : cond v = true) :
    mientras cond leer v entradas = pedir cond leer entradas := by
  cases entradas <;> simp [mientras, pedir, prompt, h]

theorem mientras_valido (v : Option α) (entradas : List Respuesta) (h : cond v = false) :
    mientras cond leer v entradas = some (v, entradas) := by
  cases entradas <;> simp [mientras, h]

theorem pedir_nil : pedir cond leer [] = none := rfl

theorem pedir_cons_invalido (r : Respuesta) (resto : List Respuesta)
    (h : cond (leer r) = true) :
    pedir cond leer (r :: resto) = pedir cond leer resto := by
  rw [← mientras_invalido cond leer (leer r) resto h]
  rfl

theorem pedir_cons_valido (r : Respuesta) (resto : List Respuesta)
    (h : cond (leer r) = false) :
    pedir cond leer (r :: resto) = some (leer r, resto) := by
  rw [← mientras_valido cond leer (leer r) resto h]
  rfl

/-- A field skips every rejected response and stops at the first one its
condition lets through. -/
theorem pedir_salta (rechazadas : List Respuesta) (r : Respuesta) (resto : List Respuesta)
    (hrech : ∀ x ∈ rechazadas, cond (leer x) = true) (hr : cond (leer r) = false) :
    pedir cond leer (rechazadas ++ r :: resto) = some (leer r, resto) := by
  induction rechazadas with
  | nil => exact pedir_cons_valido cond leer r resto hr
  | cons x xs ih =>
    rw [List.cons_append, pedir_cons_invalido cond leer x _ (hrech x (List.mem_cons_self x xs))]
    exact ih (fun y hy => hrech y (List.mem_cons_of_mem x hy))

/-- Whenever a field is obtained, its value is the parse of a response of the
stream that the loop condition lets through, and what is left unread is a
suffix of the stream. -/
theorem pedir_some (entradas : List Respuesta) (v : Option α) (resto : List Respuesta)
    (h : pedir cond leer entradas = some (v, resto)) :
    ∃ r, r ∈ entradas ∧ leer r = v ∧ cond v = false ∧
      ∀ x ∈ resto, x ∈ entradas := by
  induction entradas with
  | nil => simp [pedir_nil] at h
  | cons x xs ih =>
    cases hc : cond (leer x) with
    | true =>
      rw [pedir_cons_invalido cond leer x xs hc] at h
      obtain ⟨r, hr, hv, hcv, hsub⟩ := ih h
      exact ⟨r, List.mem_cons_of_mem x hr, hv, hcv,
        fun y hy => List.mem_cons_of_mem x (hsub y hy)⟩
    | false =>
      rw [pedir_cons_valido cond leer x xs hc] at h
      simp only [Option.some.injEq, Prod.mk.injEq] at h
      obtain ⟨rfl, rfl⟩ := h
      exact ⟨x, List.mem_cons_self x xs, rfl, hc, fun y hy => List.mem_cons_of_mem x hy⟩

end Bucle

/-! ## The loop conditions and the valid responses -/

theorem condCapital_false (v : Option ℚ) :
    condCapital v = false ↔ ∃ x, v = some x ∧ 0 ≤ x := by
  cases v <;> simp [condCapital, isNaN, menorQue]

theorem condAporte_false (v : Option ℚ) :
    condAporte v = false ↔ ∃ x, v = some x ∧ 0 ≤ x := by
  cases v <;> simp [condAporte, isNaN, menorQue]

theorem condPlazo_false (v : Option ℤ) :
    condPlazo v = false ↔ ∃ n, v = some n ∧ 1 ≤ n ∧ n ≤ 50 := by
  cases v <;> simp [condPlazo, isNaN, menorQue, mayorQue, MIN_ANIOS, MAX_ANIOS]

theorem condTasa_false (v : Option ℚ) :
    condTasa v = false ↔ ∃ x, v = some x ∧ 0 < x := by
  cases v <;> simp [condTasa, isNaN, menorIgual]

theorem condCapital_true_of_not (r : Respuesta) (h : ¬ CapitalValido r) :
    condCapital (parseFloat r) = true := by
  by_contra hc
  exact h ((condCapital_false _).1 (by simpa using hc))

theorem condAporte_true_of_not (r : Respuesta) (h : ¬ AporteValido r) :
    condAporte (parseFloat r) = true := by
  by_contra hc
  exact h ((condAporte_false _).1 (by simpa using hc))

theorem condPlazo_true_of_not (r : Respuesta) (h : ¬ PlazoValido r) :
    condPlazo (parseInt r) = true := by
  by_contra hc
  exact h ((condPlazo_false _).1 (by simpa using hc))

theorem condTasa_true_of_not (r : Respuesta) (h : ¬ TasaValida r) :
    condTasa (parseFloat r) = true := by
  by_contra hc
  exact h ((condTasa_false _).1 (by simpa using hc))

/-! ## Claims on `obtenerDatosDeInversion` -/

/-- Whatever `obtenerDatosDeInversion` returns, it is an object whose four
fields come from responses of the stream that passed their loop condition. -/
theorem obtenerDatosDeInversion_some (entradas : List Respuesta) (v : Option Datos)
    (resto : List Respuesta) (h : obtenerDatosDeInversion entradas = some (v, resto)) :
    ∃ r1 r2 r3 r4 capital aporte plazo tasa,
      r1 ∈ entradas ∧ r2 ∈ entradas ∧ r3 ∈ entradas ∧ r4 ∈ entradas ∧
      parseFloat r1 = some capital ∧ 0 ≤ capital ∧
      parseFloat r2 = some aporte ∧ 0 ≤ aporte ∧
      parseInt r3 = some plazo ∧ 1 ≤ plazo ∧ plazo ≤ 50 ∧
      parseFloat r4 = some tasa ∧ 0 < tasa ∧
      v = some ⟨capital, aporte, plazo, tasa / 100⟩ := by
  rw [obtenerDatosDeInversion_eq] at h
  obtain ⟨⟨v1, e1⟩, h1, h⟩ := Option.bind_eq_some.1 h
  obtain ⟨⟨v2, e2⟩, h2, h⟩ := Option.bind_eq_some.1 h
  obtain ⟨⟨v3, e3⟩, h3, h⟩ := Option.bind_eq_some.1 h
  obtain ⟨⟨v4, e4⟩, h4, h⟩ := Option.bind_eq_some.1 h
  dsimp only at h2 h3 h4 h
  obtain ⟨r1, m1, p1, c1, s1⟩ := pedir_some _ _ _ _ _ h1
  obtain ⟨r2, m2, p2, c2, s2⟩ := pedir_some _ _ _ _ _ h2
  obtain ⟨r3, m3, p3, c3, s3⟩ := pedir_some _ _ _ _ _ h3
  obtain ⟨r4, m4, p4, c4, _⟩ := pedir_some _ _ _ _ _ h4
  obtain ⟨capital, rfl, hc⟩ := (condCapital_false _).1 c1
  obtain ⟨aporte, rfl, ha⟩ := (condAporte_false _).1 c2
  obtain ⟨plazo, rfl, hp1, hp2⟩ := (condPlazo_false _).1 c3
  obtain ⟨tasa, rfl, ht⟩ := (condTasa_false _).1 c4
  refine ⟨r1, r2, r3, r4, capital, aporte, plazo, tasa, m1, s1 _ m2, s1 _ (s2 _ m3),
    s1 _ (s2 _ (s3 _ m4)), p1, hc, p2, ha, p3, hp1, hp2, p4, ht, ?_⟩
  simp only [Option.some.injEq, Prod.mk.injEq] at h
  rw [← h.1]
  simp [porDevolver, isNaN]

/-- The `return null` of line 43 is never reached: no stream of responses,
with or without cancellations, makes `obtenerDatosDeInversion` return `null`. -/
theorem obtenerDatosDeInversion_nunca_null (entradas resto : List Respuesta) :
    obtenerDatosDeInversion entradas ≠ some (none, resto) := by
  intro h
  obtain ⟨_, _, _, _, _, _, _, _, _, _, _, _, _, _, _, _, _, _, _, _, _, hv⟩ :=
    obtenerDatosDeInversion_some entradas none resto h
  simp at hv

/-- A stream in which every prompt is cancelled leaves
`obtenerDatosDeInversion` blocked at a prompt: it does not return. -/
theorem obtenerDatosDeInversion_todo_cancelado (n : ℕ) :
    obtenerDatosDeInversion (List.replicate n Respuesta.cancelar) = none := by
  have hp : pedir condCapital parseFloat (List.replicate n Respuesta.cancelar) = none := by
    induction n with
    | zero => rfl
    | succ n ih =>
      rw [List.replicate_succ, pedir_cons_invalido _ _ _ _ (by rfl)]
      exact ih
  rw [obtenerDatosDeInversion_eq, hp]
  rfl

/-- C2 (the code departs from the claim): on the stream "cancel, 1000, 100,
10, 8" the first prompt is cancelled, yet `obtenerDatosDeInversion` asks the
capital again and returns the object (1000, 100, 10, 0.08) instead of `null`,
and `iniciarSimulador` computes the projection instead of reporting the
simulation as cancelled. -/
theorem obtenerDatosDeInversion_cancelar_no_devuelve_null :
    Respuesta.cancelar ∈ [Respuesta.cancelar, entero 1000, entero 100, entero 10, entero 8] ∧
      obtenerDatosDeInversion
          [Respuesta.cancelar, entero 1000, entero 100, entero 10, entero 8] =
        some (some ⟨1000, 100, 10, 8 / 100⟩, []) ∧
      ramaSimulador (some ⟨1000, 100, 10, 8 / 100⟩) ≠ Rama.cancelada := by
  refine ⟨List.mem_cons_self _ _, rfl, ?_⟩
  simp [ramaSimulador]

/-- C9: if the stream of responses is a run of responses invalid for the
capital, then a response parsing to `capital >= 0`, then a run invalid for the
contribution, then one parsing to `aporte >= 0`, then a run invalid for the
term, then one parsing to an integer `plazo` in `[1, 50]`, then a run invalid
for the rate, then one parsing to `tasa > 0`, then `resto`, the function
returns the object `(capital, aporte, plazo, tasa / 100)` and leaves exactly
`resto` unread. -/
theorem obtenerDatosDeInversion_primeras_validas
    (rc ra rp rt resto : List Respuesta) (r1 r2 r3 r4 : Respuesta)
    (capital aporte tasa : ℚ) (plazo : ℤ)
    (hrc : ∀ x ∈ rc, ¬ CapitalValido x) (h1 : parseFloat r1 = some capital)
    (hc : 0 ≤ capital)
    (hra : ∀ x ∈ ra, ¬ AporteValido x) (h2 : parseFloat r2 = some aporte)
    (ha : 0 ≤ aporte)
    (hrp : ∀ x ∈ rp, ¬ PlazoValido x) (h3 : parseInt r3 = some plazo)
    (hp1 : 1 ≤ plazo) (hp2 : plazo ≤ 50)
    (hrt : ∀ x ∈ rt, ¬ TasaValida x) (h4 : parseFloat r4 = some tasa)
    (ht : 0 < tasa) :
    obtenerDatosDeInversion
        (rc ++ r1 :: (ra ++ r2 :: (rp ++ r3 :: (rt ++ r4 :: resto)))) =
      some (some ⟨capital, aporte, plazo, tasa / 100⟩, resto) := by
  rw [obtenerDatosDeInversion_eq,
    pedir_salta condCapital parseFloat rc r1 _
      (fun x hx => condCapital_true_of_not x (hrc x hx))
      ((condCapital_false _).2 ⟨capital, h1, hc⟩)]
  simp only [Option.some_bind]
  rw [pedir_salta condAporte parseFloat ra r2 _
      (fun x hx => condAporte_true_of_not x (hra x hx))
      ((condAporte_false _).2 ⟨aporte, h2, ha⟩)]
  simp only [Option.some_bind]
  rw [pedir_salta condPlazo parseInt rp r3 _
      (fun x hx => condPlazo_true_of_not x (hrp x hx))
      ((condPlazo_false _).2 ⟨plazo, h3, hp1, hp2⟩)]
  simp only [Option.some_bind]
  rw [pedir_salta condTasa parseFloat rt r4 _
      (fun x hx => condTasa_true_of_not x (hrt x hx))
      ((condTasa_false _).2 ⟨tasa, h4, ht⟩)]
  simp [h1, h2, h3, h4, porDevolver, isNaN]

/-- Witness of C9: capital asked three times (-5 and an unreadable text are
rejected, 1000 is kept), contribution twice (-1, then 100), term four times
(0, 51 and a cancelled prompt, then 10), rate three times (0, -3, then 8); one
more response is left unread. -/
theorem obtenerDatosDeInversion_primeras_validas_witness :
    obtenerDatosDeInversion
        ([entero (-5), ilegible] ++ entero 1000 :: ([entero (-1)] ++ entero 100 ::
          ([entero 0, entero 51, Respuesta.cancelar] ++ entero 10 ::
            ([entero 0, entero (-3)] ++ entero 8 :: [Respuesta.cancelar])))) =
      some (some ⟨1000, 100, 10, 8 / 100⟩, [Respuesta.cancelar]) :=
  obtenerDatosDeInversion_primeras_validas
    [entero (-5), ilegible] [entero (-1)] [entero 0, entero 51, Respuesta.cancelar]
    [entero 0, entero (-3)] [Respuesta.cancelar]
    (entero 1000) (entero 100) (entero 10) (entero 8) 1000 100 8 10
    (by simp [CapitalValido, parseFloat, entero, ilegible])
    (by simp [parseFloat, entero]) (by norm_num)
    (by simp [AporteValido, parseFloat, entero])
    (by simp [parseFloat, entero]) (by norm_num)
    (by simp [PlazoValido, parseInt, entero])
    (by simp [parseInt, entero]) (by norm_num) (by norm_num)
    (by simp [TasaValida, parseFloat, entero])
    (by simp [parseFloat, entero]) (by norm_num)

namespace Binary64

/-! ## Rounding to binary64 -/

theorem redondeoPar_nonneg (x : ℚ) (h : 0 ≤ x) : 0 ≤ redondeoPar x := by
  have hf : 0 ≤ ⌊x⌋ := Int.floor_nonneg.2 h
  unfold redondeoPar
  split_ifs <;> omega

theorem redondeoPar_le (x : ℚ) : (redondeoPar x : ℚ) ≤ x + 1 := by
  have hf : (⌊x⌋ : ℚ) ≤ x := Int.floor_le x
  unfold redondeoPar
  split_ifs <;> push_cast <;> linarith

theorem redondeoPar_eq_zero (x : ℚ) (h0 : 0 ≤ x) (h : x < 1 / 2) : redondeoPar x = 0 := by
  have hf : ⌊x⌋ = 0 := by
    rw [Int.floor_eq_iff]
    constructor
    · simpa using h0
    · norm_num; linarith
  rw [redondeoPar, hf]
  simp only [Int.cast_zero, sub_zero]
  rw [if_pos h]

/-- In the subnormal range the spacing is `2 ^ (-1074)` and nothing overflows. -/
theorem redondearMagnitud_subnormal (a : ℚ) (h : a < 2 ^ (-1022 : ℤ)) :
    redondearMagnitud a =
      .finito (redondeoPar (a / 2 ^ (-1074 : ℤ)) * 2 ^ (-1074 : ℤ)) := by
  have hu : (0 : ℚ) < 2 ^ (-1074 : ℤ) := by positivity
  have hr : (redondeoPar (a / 2 ^ (-1074 : ℤ)) : ℚ) * 2 ^ (-1074 : ℤ) < 2 ^ (1024 : ℤ) := by
    calc (redondeoPar (a / 2 ^ (-1074 : ℤ)) : ℚ) * 2 ^ (-1074 : ℤ)
        ≤ (a / 2 ^ (-1074 : ℤ) + 1) * 2 ^ (-1074 : ℤ) :=
          mul_le_mul_of_nonneg_right (redondeoPar_le _) hu.le
      _ = a + 2 ^ (-1074 : ℤ) := by field_simp
      _ < 2 ^ (-1022 : ℤ) + 2 ^ (-1022 : ℤ) :=
          add_lt_add_of_lt_of_le h (zpow_le_zpow_right₀ (by norm_num) (by norm_num))
      _ = 2 ^ (-1021 : ℤ) := by
          rw [show (-1021 : ℤ) = -1022 + 1 from rfl, zpow_add₀ (by norm_num)]
          ring
      _ ≤ 2 ^ (1024 : ℤ) := zpow_le_zpow_right₀ (by norm_num) (by norm_num)
  unfold redondearMagnitud exponente
  rw [if_pos h]
  simp only [show (-1022 : ℤ) - 52 = -1074 from rfl]
  rw [if_neg (not_le.2 hr)]

/-- The rounding of a magnitude is `Infinity` or a finite value that is not
negative; it is never `NaN`. -/
theorem redondearMagnitud_noNegativo (a : ℚ) (h : 0 ≤ a) : NoNegativo (redondearMagnitud a) := by
  unfold redondearMagnitud
  dsimp only
  split_ifs
  · exact Or.inl rfl
  · refine Or.inr ⟨_, rfl, ?_⟩
    have hn : (0 : ℚ) ≤ redondeoPar (a / 2 ^ (exponente a - 52)) := by
      exact_mod_cast redondeoPar_nonneg _ (div_nonneg h (by positivity))
    exact mul_nonneg hn (by positivity)

theorem entre100_noNegativo (x : Numero ℚ) (h : Positivo x) : NoNegativo (entre100 x) := by
  rcases h with rfl | ⟨v, rfl, hv⟩
  · exact Or.inl rfl
  · have hq : ¬ (v / 100 < 0) := not_lt.2 (by positivity)
    simp only [entre100, redondear, if_neg hq]
    exact redondearMagnitud_noNegativo _ (by positivity)

/-- The quotient of the least rate `parseFloat` can read above `2 ^ (-1074)`
by 100 is rounded to zero. -/
theorem redondear_tasa_minima : redondear (2 ^ (-1073 : ℤ) / 100) = .finito 0 := by
  have hq : ¬ ((2 : ℚ) ^ (-1073 : ℤ) / 100 < 0) := not_lt.2 (by positivity)
  have hs : (2 : ℚ) ^ (-1073 : ℤ) / 100 < 2 ^ (-1022 : ℤ) := by
    rw [div_lt_iff₀ (by norm_num)]
    calc (2 : ℚ) ^ (-1073 : ℤ) ≤ 2 ^ (-1022 : ℤ) :=
          zpow_le_zpow_right₀ (by norm_num) (by norm_num)
      _ < 2 ^ (-1022 : ℤ) * 100 := lt_mul_of_one_lt_right (by positivity) (by norm_num)
  have hd : (2 : ℚ) ^ (-1073 : ℤ) / 100 / 2 ^ (-1074 : ℤ) = 1 / 50 := by
    rw [show (-1073 : ℤ) = -1074 + 1 from rfl, zpow_add₀ (by norm_num)]
    field_simp
    ring
  rw [redondear, if_neg hq, redondearMagnitud_subnormal _ hs, hd,
    redondeoPar_eq_zero _ (by norm_num) (by norm_num)]
  simp

/-- The number `2 ^ (-1073)` is a binary64 number: rounding leaves it as it is. -/
theorem redondear_dos_subnormal :
    redondear (2 ^ (-1073 : ℤ)) = .finito (2 ^ (-1073 : ℤ)) := by
  have hq : ¬ ((2 : ℚ) ^ (-1073 : ℤ) < 0) := not_lt.2 (by positivity)
  have hs : (2 : ℚ) ^ (-1073 : ℤ) < 2 ^ (-1022 : ℤ) :=
    zpow_lt_zpow_right₀ (by norm_num) (by norm_num)
  have hd : (2 : ℚ) ^ (-1073 : ℤ) / 2 ^ (-1074 : ℤ) = ((2 : ℕ) : ℚ) := by
    rw [show (-1073 : ℤ) = -1074 + 1 from rfl, zpow_add₀ (by norm_num)]
    field_simp
  have h2 : redondeoPar ((2 : ℕ) : ℚ) = 2 := by simp [redondeoPar]
  rw [redondear, if_neg hq, redondearMagnitud_subnormal _ hs, hd, h2]
  congr 1
  rw [show (-1073 : ℤ) = -1074 + 1 from rfl, zpow_add₀ (by norm_num)]
  push_cast
  ring

/-! ## The retry loops over binary64 numbers -/

theorem obtenerDatosDeInversion_eq_pedir (entradas : List Respuesta) :
    obtenerDatosDeInversion entradas =
      (pedir condCapital parseFloat entradas).bind fun p1 =>
      (pedir condAporte parseFloat p1.2).bind fun p2 =>
      (pedir condPlazo parseInt p2.2).bind fun p3 =>
      (pedir condTasa parseFloat p3.2).bind fun p4 =>
      some
        (if isNaN p1.1 || isNaN p2.1 || isNaN p3.1 || isNaN p4.1 then none
          else some ⟨p1.1, p2.1, p3.1, entre100 p4.1⟩,
        p4.2) := by
  unfold obtenerDatosDeInversion pedir
  simp only [Option.bind_eq_bind, Option.bind_assoc, Option.pure_def]
  congr 1; funext ⟨r, e⟩; dsimp only
  congr 1; funext ⟨c, e⟩; dsimp only
  congr 1; funext ⟨r, e⟩; dsimp only
  congr 1; funext ⟨a, e⟩; dsimp only
  congr 1; funext ⟨r, e⟩; dsimp only
  congr 1; funext ⟨p, e⟩; dsimp only
  congr 1; funext ⟨r, e⟩; dsimp only
  congr 1; funext ⟨t, e⟩; dsimp only
  split <;> rfl

theorem pedir_cons_rechazada {α : Type} (cond : Numero α → Bool)
    (leer : Respuesta → Numero α) (r : Respuesta) (resto : List Respuesta)
    (h : cond (leer r) = true) :
    pedir cond leer (r :: resto) = pedir cond leer resto := by
  cases resto <;> simp [pedir, prompt, mientras, h]

theorem pedir_cons_aceptada {α : Type} (cond : Numero α → Bool)
    (leer : Respuesta → Numero α) (r : Respuesta) (resto : List Respuesta)
    (h : cond (leer r) = false) :
    pedir cond leer (r :: resto) = some (leer r, resto) := by
  cases resto <;> simp [pedir, prompt, mientras, h]

/-- Whenever a field is obtained, its value is the parse of a response of the
stream that the loop condition lets through, and what is left unread comes
from the stream. -/
theorem pedir_eq_some {α : Type} (cond : Numero α → Bool) (leer : Respuesta → Numero α)
    (entradas : List Respuesta) (v : Numero α) (resto : List Respuesta)
    (h : pedir cond leer entradas = some (v, resto)) :
    ∃ r, r ∈ entradas ∧ leer r = v ∧ cond v = false ∧ ∀ x ∈ resto, x ∈ entradas := by
  induction entradas with
  | nil => simp [pedir, prompt] at h
  | cons x xs ih =>
    cases hc : cond (leer x) with
    | true =>
      rw [pedir_cons_rechazada cond leer x xs hc] at h
      obtain ⟨r, hr, hv, hcv, hsub⟩ := ih h
      exact ⟨r, List.mem_cons_of_mem x hr, hv, hcv,
        fun y hy => List.mem_cons_of_mem x (hsub y hy)⟩
    | false =>
      rw [pedir_cons_aceptada cond leer x xs hc] at h
      simp only [Option.some.injEq, Prod.mk.injEq] at h
      obtain ⟨rfl, rfl⟩ := h
      exact ⟨x, List.mem_cons_self x xs, rfl, hc, fun y hy => List.mem_cons_of_mem x hy⟩

theorem condCapital_eq_false (v : Numero ℚ) : condCapital v = false ↔ NoNegativo v := by
  rcases v with _ | b | v <;> simp [condCapital, isNaN, menorQue, NoNegativo]

theorem condAporte_eq_false (v : Numero ℚ) : condAporte v = false ↔ NoNegativo v := by
  rcases v with _ | b | v <;> simp [condAporte, isNaN, menorQue, NoNegativo]

theorem condPlazo_eq_false (v : Numero ℤ) : condPlazo v = false ↔ PlazoEnRango v := by
  rcases v with _ | b | v <;>
    simp [condPlazo, isNaN, menorQue, mayorQue, PlazoEnRango, MIN_ANIOS, MAX_ANIOS]

theorem condTasa_eq_false (v : Numero ℚ) : condTasa v = false ↔ Positivo v := by
  rcases v with _ | b | v <;> simp [condTasa, isNaN, menorIgual, Positivo]

theorem isNaN_of_noNegativo (v : Numero ℚ) (h : NoNegativo v) : isNaN v = false := by
  rcases h with rfl | ⟨x, rfl, _⟩ <;> rfl

theorem isNaN_of_positivo (v : Numero ℚ) (h : Positivo v) : isNaN v = false := by
  rcases h with rfl | ⟨x, rfl, _⟩ <;> rfl

theorem isNaN_of_plazoEnRango (v : Numero ℤ) (h : PlazoEnRango v) : isNaN v = false := by
  obtain ⟨n, rfl, _⟩ := h
  rfl

/-- Four responses in a row, each accepted by its field, are returned as the
object, the rate divided by 100. -/
theorem obtenerDatosDeInversion_cuatro_aceptadas (r1 r2 r3 r4 : Respuesta)
    (resto : List Respuesta) (h1 : NoNegativo (parseFloat r1)) (h2 : NoNegativo (parseFloat r2))
    (h3 : PlazoEnRango (parseInt r3)) (h4 : Positivo (parseFloat r4)) :
    obtenerDatosDeInversion (r1 :: r2 :: r3 :: r4 :: resto) =
      some (some ⟨parseFloat r1, parseFloat r2, parseInt r3, entre100 (parseFloat r4)⟩,
        resto) := by
  rw [obtenerDatosDeInversion_eq_pedir,
    pedir_cons_aceptada _ _ _ _ ((condCapital_eq_false _).2 h1)]
  simp only [Option.some_bind]
  rw [pedir_cons_aceptada _ _ _ _ ((condAporte_eq_false _).2 h2)]
  simp only [Option.some_bind]
  rw [pedir_cons_aceptada _ _ _ _ ((condPlazo_eq_false _).2 h3)]
  simp only [Option.some_bind]
  rw [pedir_cons_aceptada _ _ _ _ ((condTasa_eq_false _).2 h4)]
  simp [isNaN_of_noNegativo _ h1, isNaN_of_noNegativo _ h2, isNaN_of_plazoEnRango _ h3,
    isNaN_of_positivo _ h4]

/-! ## Claim C3 -/

/-- C3, as the code has it (amended, the claim's `tasa > 0` does not hold of
the stored rate): whenever `obtenerDatosDeInversion`
returns an object, no field of it is `NaN`, `capital >= 0`, `aporte >= 0`,
`1 <= plazo <= 50` and `tasa >= 0`; capital, contribution and term are the
parses of responses of the user, and `tasa` is the binary64 quotient by 100 of
the parse of a response that is `> 0`. So no response that is negative, out of
`[1, 50]`, `<= 0` for the rate, unparseable or cancelled is ever accepted. -/
theorem obtenerDatosDeInversion_acepta_solo_validos (entradas : List Respuesta)
    (datos : Datos) (resto : List Respuesta)
    (h : obtenerDatosDeInversion entradas = some (some datos, resto)) :
    NoNegativo datos.capital ∧ NoNegativo datos.aporte ∧ PlazoEnRango datos.plazo ∧
      NoNegativo datos.tasa ∧
      ∃ r1 r2 r3 r4,
        r1 ∈ entradas ∧ r2 ∈ entradas ∧ r3 ∈ entradas ∧ r4 ∈ entradas ∧
        parseFloat r1 = datos.capital ∧ parseFloat r2 = datos.aporte ∧
        parseInt r3 = datos.plazo ∧
        Positivo (parseFloat r4) ∧ datos.tasa = entre100 (parseFloat r4) := by
  rw [obtenerDatosDeInversion_eq_pedir] at h
  obtain ⟨⟨v1, e1⟩, h1, h⟩ := Option.bind_eq_some.1 h
  obtain ⟨⟨v2, e2⟩, h2, h⟩ := Option.bind_eq_some.1 h
  obtain ⟨⟨v3, e3⟩, h3, h⟩ := Option.bind_eq_some.1 h
  obtain ⟨⟨v4, e4⟩, h4, h⟩ := Option.bind_eq_some.1 h
  dsimp only at h2 h3 h4 h
  obtain ⟨r1, m1, p1, c1, s1⟩ := pedir_eq_some _ _ _ _ _ h1
  obtain ⟨r2, m2, p2, c2, s2⟩ := pedir_eq_some _ _ _ _ _ h2
  obtain ⟨r3, m3, p3, c3, s3⟩ := pedir_eq_some _ _ _ _ _ h3
  obtain ⟨r4, m4, p4, c4, _⟩ := pedir_eq_some _ _ _ _ _ h4
  have n1 := (condCapital_eq_false _).1 c1
  have n2 := (condAporte_eq_false _).1 c2
  have n3 := (condPlazo_eq_false _).1 c3
  have n4 := (condTasa_eq_false _).1 c4
  simp only [isNaN_of_noNegativo _ n1, isNaN_of_noNegativo _ n2, isNaN_of_plazoEnRango _ n3,
    isNaN_of_positivo _ n4, Bool.or_self, Bool.false_eq_true, if_false, Option.some.injEq,
    Prod.mk.injEq] at h
  obtain ⟨rfl, _⟩ := h
  exact ⟨n1, n2, n3, entre100_noNegativo _ n4, r1, r2, r3, r4, m1, s1 _ m2, s1 _ (s2 _ m3),
    s1 _ (s2 _ (s3 _ m4)), p1, p2, p3, p4 ▸ n4, by rw [p4]⟩

/-- Witness of C3: the responses -5, a cancelled prompt, `Infinity` (capital),
100 (aporte), 0, 51, 10 (plazo), 0 and 8 (tasa) give the object
(Infinity, 100, 10, 8 / 100 rounded), whose fields pass the tests. -/
theorem obtenerDatosDeInversion_acepta_solo_validos_witness :
    obtenerDatosDeInversion
        [entero (-5), Respuesta.cancelar, Respuesta.texto (.infinito false) .nan, entero 100,
          entero 0, entero 51, entero 10, entero 0, entero 8] =
      some (some ⟨.infinito false, .finito 100, .finito 10, entre100 (.finito 8)⟩, []) ∧
    NoNegativo (.infinito false) ∧ NoNegativo (.finito 100) ∧ PlazoEnRango (.finito 10) ∧
      NoNegativo (entre100 (.finito 8)) := by
  have h : obtenerDatosDeInversion
      [entero (-5), Respuesta.cancelar, Respuesta.texto (.infinito false) .nan, entero 100,
        entero 0, entero 51, entero 10, entero 0, entero 8] =
      some (some ⟨.infinito false, .finito 100, .finito 10, entre100 (.finito 8)⟩, []) := by
    rw [obtenerDatosDeInversion_eq_pedir,
      pedir_cons_rechazada condCapital parseFloat (entero (-5)) _
        (by simp [condCapital, isNaN, menorQue, parseFloat, entero]),
      pedir_cons_rechazada condCapital parseFloat Respuesta.cancelar _ rfl,
      pedir_cons_aceptada condCapital parseFloat (Respuesta.texto (.infinito false) .nan) _ rfl]
    simp only [Option.some_bind]
    rw [pedir_cons_aceptada condAporte parseFloat (entero 100) _
        (by simp [condAporte, isNaN, menorQue, parseFloat, entero])]
    simp only [Option.some_bind]
    rw [pedir_cons_rechazada condPlazo parseInt (entero 0) _
        (by simp [condPlazo, isNaN, menorQue, mayorQue, parseInt, entero, MIN_ANIOS]),
      pedir_cons_rechazada condPlazo parseInt (entero 51) _
        (by simp [condPlazo, isNaN, menorQue, mayorQue, parseInt, entero, MIN_ANIOS, MAX_ANIOS]),
      pedir_cons_aceptada condPlazo parseInt (entero 10) _
        (by simp [condPlazo, isNaN, menorQue, mayorQue, parseInt, entero, MIN_ANIOS, MAX_ANIOS])]
    simp only [Option.some_bind]
    rw [pedir_cons_rechazada condTasa parseFloat (entero 0) _
        (by simp [condTasa, isNaN, menorIgual, parseFloat, entero]),
      pedir_cons_aceptada condTasa parseFloat (entero 8) _
        (by simp [condTasa, isNaN, menorIgual, parseFloat, entero])]
    simp [isNaN, parseFloat, parseInt, entero]
  have t := obtenerDatosDeInversion_acepta_solo_validos _ _ _ h
  exact ⟨h, t.1, t.2.1, t.2.2.1, t.2.2.2.1⟩

/-- C3 fails as stated: on the responses 1000, 100, 10 and the rate text
`1e-323` the rate `2 ^ (-1073)`, a binary64 number, is above zero and passes
the loop of line 34, its quotient by 100 is rounded to zero at line 50, and the
returned object has `tasa = 0`, which is not `> 0`. -/
theorem obtenerDatosDeInversion_tasa_cero :
    redondear (2 ^ (-1073 : ℤ)) = parseFloat textoTasaMinima ∧
    Positivo (parseFloat textoTasaMinima) ∧
    obtenerDatosDeInversion [entero 1000, entero 100, entero 10, textoTasaMinima] =
      some (some ⟨.finito 1000, .finito 100, .finito 10, .finito 0⟩, []) ∧
    ¬ Positivo (Datos.tasa ⟨.finito 1000, .finito 100, .finito 10, .finito 0⟩) := by
  refine ⟨redondear_dos_subnormal, Or.inr ⟨2 ^ (-1073 : ℤ), rfl, by positivity⟩, ?_, ?_⟩
  · rw [obtenerDatosDeInversion_cuatro_aceptadas (entero 1000) (entero 100) (entero 10)
      textoTasaMinima []
      (Or.inr ⟨1000, by simp [parseFloat, entero], by norm_num⟩)
      (Or.inr ⟨100, by simp [parseFloat, entero], by norm_num⟩)
      ⟨10, by simp [parseInt, entero], by norm_num, by norm_num⟩
      (Or.inr ⟨2 ^ (-1073 : ℤ), rfl, by positivity⟩)]
    have ht : entre100 (parseFloat textoTasaMinima) = .finito 0 := redondear_tasa_minima
    rw [ht]
    simp [parseFloat, parseInt, entero]
  · simp [Positivo]

end Binary64

end Simulador
